import Mathlib

/-!
Shallow embedding of the self-tracing core of this repository
(common/HostDebug.cpp and pcsx2/Tracing/TraceRecorder.cpp), together with
theorems settling the specification claims against it.

Machine integers are modelled as `Nat` with an explicit `% 2^32` wherever the
source computes in `u32` (`m_top` is `std::atomic_uint32_t`, offsets and sizes
of traced globals are `u32`).  Fallible operations return `Option`/`Except` or
a dedicated result inductive; OS syscall outcomes (ptrace, waitpid, clone,
thread enumeration) are supplied as oracle parameters.
-/

namespace Tracing

/-- 2^32, the modulus of the source's `u32` arithmetic. -/
def u32size : Nat := 4294967296

/-- The allocation size passed to `malloc` in `TraceRecorder::BeginTrace`
(`_256mb` from common/Pcsx2Defs.h, which is outside the excerpted sources; the
spec states the buffer "is allocated at 256 MiB"). -/
def mb256 : Nat := 268435456

/-- The value stored into `m_buffer_size` by `TraceRecorder::BeginTrace`
(`_1gb` from common/Pcsx2Defs.h, which is outside the excerpted sources; the
spec states "its capacity field is recorded as 1 GiB"). -/
def gb1 : Nat := 1073741824

/-- Modelled from the spec: `Common::AlignUpPow2` (common/BitUtils.h, which is
outside the excerpted sources) rounds a value up to the next multiple of a
power-of-two alignment ("offset = 16-byte-aligned running total"; packets are
"4-byte aligned"). -/
def alignUpPow2 (value alignment : Nat) : Nat :=
  (value + alignment - 1) / alignment * alignment

/-- One entry of `s_traced_globals` (struct TracedGlobal: name, buffer pointer,
assigned `u32` offset, `u32` size).  The host pointer is modelled as a `Nat`. -/
structure TracedGlobal where
  name : String
  buffer : Nat
  offset : Nat
  size : Nat
deriving DecidableEq, Repr

/-- The process-wide registry: `s_traced_globals` plus the running total
`s_traced_globals_size` (a `u32`). -/
structure Registry where
  traced_globals : List TracedGlobal
  traced_globals_size : Nat
deriving DecidableEq, Repr

/-- `Tracing::RegisterGlobal(name, buffer, size)`: appends an entry whose
offset is the 16-byte-aligned running total, and advances the running total to
`offset + size` (stored back into the `u32` `s_traced_globals_size`; the size
parameter is a `size_t` cast to `u32` for the entry's size field). -/
def registerGlobal (r : Registry) (name : String) (buffer : Nat) (size : Nat) :
    Registry :=
  let offset := alignUpPow2 r.traced_globals_size 16
  { traced_globals := r.traced_globals ++ [⟨name, buffer, offset, size % u32size⟩]
    traced_globals_size := (offset + size) % u32size }

/-- The membership test `source >= global.buffer && source < global.buffer +
global.size` from `TranslateHostAddressToOffset`. -/
def inRegion (g : TracedGlobal) (p : Nat) : Prop :=
  g.buffer ≤ p ∧ p < g.buffer + g.size

instance (g : TracedGlobal) (p : Nat) : Decidable (inRegion g p) :=
  inferInstanceAs (Decidable (g.buffer ≤ p ∧ p < g.buffer + g.size))

/-- `Tracing::TranslateHostAddressToOffset`: linear scan over the registered
globals; on the first entry whose region contains `source`, write
`global.offset + u32(source - global.buffer)` (a `u32` sum) to the destination
and return true; return false if no entry matches.  `some`/`none` model the
(return value, `*destination`) pair. -/
def translateHostAddressToOffset (globals : List TracedGlobal) (source : Nat) :
    Option Nat :=
  match globals with
  | [] => none
  | g :: rest =>
    if inRegion g source then
      some ((g.offset + (source - g.buffer)) % u32size)
    else
      translateHostAddressToOffset rest source

/-- The recorder fields set up by `TraceRecorder::BeginTrace`: the number of
bytes actually allocated with `malloc`, the recorded `m_buffer_size`, and the
cursor `m_top`. -/
structure RecorderConfig where
  bufferAlloc : Nat
  bufferSize : Nat
  top : Nat
deriving DecidableEq, Repr

/-- `TraceRecorder::BeginTrace` (success path): `malloc(_256mb)`,
`m_buffer_size = _1gb`, `m_top = 0`. -/
def beginTrace : RecorderConfig :=
  { bufferAlloc := mb256, bufferSize := gb1, top := 0 }

/-- The observable effect of one `TraceRecorder::PushPacket` call: the 4-byte
aligned offset at which its header is placed, the size it claims, the resulting
cursor value, and whether the `if (m_top > m_buffer_size) abort();` check
fired.  When `aborted` is true the process dies before the header is written. -/
structure PushResult where
  alignedOffset : Nat
  size : Nat
  newTop : Nat
  aborted : Bool
deriving DecidableEq, Repr

/-- `TraceRecorder::PushPacket` (the successful compare-and-swap iteration,
which is the linearisation point of the concurrent bump): reads `m_top`,
aligns it up to 4 bytes, CASes `m_top` to `aligned_offset + size` (`u32`
arithmetic, hence the `% 2^32`), then aborts if the new `m_top` exceeds
`m_buffer_size`; otherwise the header is written at `aligned_offset`. -/
def pushPacket (bufferSize top size : Nat) : PushResult :=
  let alignedOffset := alignUpPow2 top 4
  let newTop := (alignedOffset + size) % u32size
  { alignedOffset := alignedOffset
    size := size
    newTop := newTop
    aborted := decide (bufferSize < newTop) }

/-- A sequence of `PushPacket` calls executed in linearisation order starting
from cursor `top`.  An aborting push terminates the program, so nothing runs
after it. -/
def runPushes (bufferSize : Nat) : Nat → List Nat → List PushResult
  | _, [] => []
  | top, size :: rest =>
    let r := pushPacket bufferSize top size
    if r.aborted then [r] else r :: runPushes bufferSize r.newTop rest

/-- The packet types of TraceFormat.h. -/
inductive PacketType
  | INVALID
  | SAVE_STATE
  | BEGIN_EVENT
  | END_EVENT
  | WRITE
deriving DecidableEq, Repr

/-- `sizeof(EventPacket)` (TraceFormat.h: packed `u16 event; u8 channel;
u8 thread; u32 timestamp;` = 8 bytes). -/
def sizeofEventPacket : Nat := 8

/-- The recorder state observable by the event-marker operations: the cursor
and the list of packet headers written so far, each `(type, size field,
aligned offset)`. -/
structure RecState where
  top : Nat
  packets : List (PacketType × Nat × Nat)
deriving DecidableEq, Repr

/-- `TraceRecorder::BeginEvent(event, channel)`: pushes one packet with type
`BEGIN_EVENT` and size `sizeof(EventPacket)`.  The source never writes the
`event` and `channel` arguments into the packet payload (the `EventPacket*`
local is unused), so they do not appear in the resulting state.  `none` models
the abort path of the underlying `PushPacket`. -/
def beginEvent (event : Nat) (channel : Nat) (s : RecState) : Option RecState :=
  let r := pushPacket beginTrace.bufferSize s.top sizeofEventPacket
  if r.aborted then none
  else
    some { top := r.newTop
           packets := s.packets ++
             [(PacketType.BEGIN_EVENT, sizeofEventPacket, r.alignedOffset)] }

/-- `TraceRecorder::EndEvent(event, channel)`: the function body is empty; no
packet is pushed and the recorder state is unchanged. -/
def endEvent (event : Nat) (channel : Nat) (s : RecState) : RecState := s

end Tracing

namespace HostDebug

/-- `ThreadID` (`pid_t`); thread ids read from /proc are positive. -/
abbrev ThreadID := Nat

/-- The state of a `HostDebugInterface`: the `m_attached` flag and the key set
of the `m_threads` map (the per-thread wait-status cell stored in the map is
not observed by any claim and is elided). -/
structure DebugState where
  attached : Bool
  threads : List ThreadID
deriving DecidableEq, Repr

/-- Outcome oracle for the three syscalls of
`HostDebugInterface::AttachToThread`: `ptrace(PTRACE_ATTACH)` may fail before
the thread is inserted into the map; the attach-stop wait and
`ptrace(PTRACE_SETOPTIONS)` may fail after it has been inserted. -/
inductive AttachStep
  | attachFail
  | waitFail
  | optionsFail
  | ok
deriving DecidableEq, Repr

/-- `HostDebugInterface::AttachToThread`: attach, insert into `m_threads`,
wait for the attach-stop, set `PTRACE_O_TRACECLONE`.  Returns the success flag
and the updated state (the map insertion persists even when a later step
fails). -/
def attachToThread (oracle : ThreadID → AttachStep) (s : DebugState)
    (t : ThreadID) : Bool × DebugState :=
  match oracle t with
  | .attachFail => (false, s)
  | .waitFail => (false, { s with threads := s.threads ++ [t] })
  | .optionsFail => (false, { s with threads := s.threads ++ [t] })
  | .ok => (true, { s with threads := s.threads ++ [t] })

/-- The for-loop body of one pass of `HostDebugInterface::Attach`: walk the
enumerated thread list, skip threads already in `m_threads`, attach the rest;
a per-thread failure returns false from `Attach` immediately (`Except.error`
carries the partially mutated state). -/
def attachPass (oracle : ThreadID → AttachStep) (s : DebugState) :
    List ThreadID → Except DebugState DebugState
  | [] => .ok s
  | t :: rest =>
    if t ∈ s.threads then
      attachPass oracle s rest
    else
      match attachToThread oracle s t with
      | (true, s1) => attachPass oracle s1 rest
      | (false, s1) => .error s1

/-- Result of `HostDebugInterface::Attach`: `pxAssert(!m_attached)` firing, a
false return (enumeration or per-thread attach failure, with the state at that
point), or a true return together with the number of enumeration passes that
were performed. -/
inductive AttachResult
  | assertFailed
  | failed (s : DebugState)
  | ok (s : DebugState) (passes : Nat)
deriving DecidableEq, Repr

/-- The `do { ... } while (attached);` loop of `HostDebugInterface::Attach`.
`enum pass` is the result of the `EnumerateThreads` call of pass number `pass`
(`none` models enumeration failure).  Each iteration initialises the local
`attached` flag to false; the loop body never assigns true to it (the source
attaches threads without touching the flag), so the `while (attached)`
condition is constantly false and the recursive branch is dead. -/
def attachLoop (enum : Nat → Option (List ThreadID))
    (oracle : ThreadID → AttachStep) :
    Nat → Nat → DebugState → AttachResult
  | 0, _, s => .failed s
  | fuel + 1, pass, s =>
    let attachedFlag := false
    match enum pass with
    | none => .failed s
    | some ts =>
      match attachPass oracle s ts with
      | .error s1 => .failed s1
      | .ok s1 =>
        if attachedFlag then attachLoop enum oracle fuel (pass + 1) s1
        else .ok { s1 with attached := true } (pass + 1)

/-- `HostDebugInterface::Attach`: assert `!m_attached`, run the
enumerate-and-attach loop, set `m_attached = true` on success. -/
def Attach (enum : Nat → Option (List ThreadID))
    (oracle : ThreadID → AttachStep) (s : DebugState) : AttachResult :=
  if s.attached then .assertFailed
  else attachLoop enum oracle 1000 0 s

/-- `HostDebugInterface::DetachFromThread`: `ptrace(PTRACE_DETACH)` succeeds
exactly when the kernel still knows the thread; for a thread that no longer
exists it fails (`ESRCH`) and the function returns false.  The `alive` oracle
tells which threads still exist. -/
def detachFromThread (alive : ThreadID → Bool) (t : ThreadID) : Bool :=
  alive t

/-- The for-loop of `HostDebugInterface::Detach`: detach every mapped thread,
returning false at the first failure. -/
def detachAll (alive : ThreadID → Bool) : List ThreadID → Bool
  | [] => true
  | t :: rest =>
    if detachFromThread alive t then detachAll alive rest else false

/-- Result of `HostDebugInterface::Detach`: `pxAssert(m_attached)` firing, a
false return (some `DetachFromThread` failed; `m_threads` and `m_attached` are
left as they were), or a true return (map cleared, flag reset). -/
inductive DetachResult
  | assertFailed
  | failed (s : DebugState)
  | ok (s : DebugState)
deriving DecidableEq, Repr

/-- `HostDebugInterface::Detach`: assert `m_attached`; detach every thread in
`m_threads`, returning false on the first failure with the state unchanged;
on success set `m_attached = false` and clear `m_threads`. -/
def Detach (alive : ThreadID → Bool) (s : DebugState) : DetachResult :=
  if s.attached then
    if detachAll alive s.threads then
      .ok { attached := false, threads := [] }
    else
      .failed s
  else
    .assertFailed

/-- Outcome of `HostDebugInterface::WaitForEvent`: returned `nullptr`
("no event"), hit `pxAssert(thread != m_threads.end())` because `waitpid`
reported a thread that is not in the map, or returned a `THREAD_EXITED`
event. -/
inductive WaitOutcome
  | noEvent
  | assertFailed
  | threadExited (tid : ThreadID) (status : Nat)
deriving DecidableEq, Repr

/-- The `WIFEXITED` macro: `(status & 0x7f) == 0`. -/
def wifexited (status : Nat) : Bool := status % 128 == 0

/-- `HostDebugInterface::WaitForEvent`.  `interrupt` models the
`const std::atomic_bool* m_interrupt` pointer (`none` = null pointer), `wait`
the `(tid, status)` pair a blocking `waitpid(-1, ..., __WALL)` would produce.
The first component of the result is the outcome, the second the number of
blocking `waitpid` syscalls actually issued.  The interruption flag is tested
before anything else; `RunDebugLoop` re-invokes this function as the condition
of every iteration of its event loop, so this test runs at the top of every
iteration. -/
def WaitForEvent (interrupt : Option Bool) (threads : List ThreadID)
    (wait : ThreadID × Nat) : WaitOutcome × Nat :=
  if interrupt.getD false then
    (.noEvent, 0)
  else
    let (tid, status) := wait
    if tid ∈ threads then
      if wifexited status then (.threadExited tid status, 1)
      else (.noEvent, 1)
    else
      (.assertFailed, 1)

/-- Outcome of `HostDebugThread::Start`: a false return whose error was set
with `Error::SetString` (carrying the message), a false return whose error was
set with `Error::SetErrno` (malloc, clone or prctl failure), or a true
return. -/
inductive StartOutcome
  | errorReturn (message : String)
  | errnoReturn
  | started
deriving DecidableEq, Repr

/-- Environment oracle for `HostDebugThread::Start`: the parsed
`/proc/sys/kernel/yama/ptrace_scope` value (`none` = file unreadable, in which
case the preflight check is skipped), and the success of `malloc`, `clone` and
`prctl(PR_SET_PTRACER)`. -/
structure StartEnv where
  ptraceScope : Option Int
  mallocOk : Bool
  cloneOk : Bool
  prctlOk : Bool
deriving DecidableEq, Repr

/-- `HostDebugThread::Start` after the already-started and ptrace-scope
checks: `m_started` is set to true before the allocation, so a `malloc` or
`prctl` failure returns false with `m_started` still true; only a `clone`
failure resets it to false. -/
def startAfterPreflight (env : StartEnv) : StartOutcome × Bool :=
  if env.mallocOk then
    if env.cloneOk then
      if env.prctlOk then (.started, true)
      else (.errnoReturn, true)
    else (.errnoReturn, false)
  else (.errnoReturn, true)

/-- `HostDebugThread::Start` up to the point where the outcome is decided.
If `m_started` is already true it returns false with the error string
"Tracer thread already started." — an ordinary error return, with no
assertion involved.  Then the ptrace-scope preflight check runs: a readable
scope value greater than 1 returns false with a descriptive permission error
(message elided here).  The result pairs the outcome with the final
`m_started` value. -/
def Start (started : Bool) (env : StartEnv) : StartOutcome × Bool :=
  if started then
    (.errorReturn "Tracer thread already started.", started)
  else
    match env.ptraceScope with
    | some scope =>
      if scope > 1 then (.errorReturn "ptrace scope permission", false)
      else startAfterPreflight env
    | none => startAfterPreflight env

/-- Outcome of `HostDebugThread::Stop`: `pxAssert(m_started)` firing, or a
normal stop.  Modelled from the spec for the semantics of `pxAssert`
(common/Assertions.h is outside the excerpted sources): "programming errors
surfaced as hard assertion failures". -/
inductive StopOutcome
  | assertFailed
  | stopped
deriving DecidableEq, Repr

/-- `HostDebugThread::Stop`: assert `m_started`, then clear it, set the
interrupt flag and wait for the tracer thread-group to exit. -/
def Stop (started : Bool) : StopOutcome × Bool :=
  if started then (.stopped, false)
  else (.assertFailed, started)

end HostDebug

open Tracing HostDebug

/-! ## Helper lemmas -/

/-- Bounds for the 4-byte alignment used by `PushPacket`. -/
theorem alignUpPow2_four_bounds (t : Nat) :
    t ≤ alignUpPow2 t 4 ∧ alignUpPow2 t 4 ≤ t + 3 ∧ alignUpPow2 t 4 % 4 = 0 := by
  unfold alignUpPow2
  omega

/-- Unfolding equation for `pushPacket`. -/
theorem pushPacket_eq (bs t s : Nat) :
    pushPacket bs t s =
      { alignedOffset := alignUpPow2 t 4
        size := s
        newTop := (alignUpPow2 t 4 + s) % u32size
        aborted := decide (bs < (alignUpPow2 t 4 + s) % u32size) } := rfl

/-- In the overflow-free regime (cursor and size both at most `_1gb`), one
`PushPacket` aligns the header, claims exactly `[alignedOffset, alignedOffset +
size)`, and keeps the cursor within `m_buffer_size` unless it aborts. -/
theorem pushPacket_spec (bs t s : Nat) (ht : t ≤ gb1) (hs : s ≤ gb1) :
    (pushPacket bs t s).alignedOffset % 4 = 0 ∧
    t ≤ (pushPacket bs t s).alignedOffset ∧
    (pushPacket bs t s).size = s ∧
    (pushPacket bs t s).newTop = (pushPacket bs t s).alignedOffset + s ∧
    ((pushPacket bs t s).aborted = false → (pushPacket bs t s).newTop ≤ bs) := by
  obtain ⟨h1, h2, h3⟩ := alignUpPow2_four_bounds t
  have hlt : alignUpPow2 t 4 + s < u32size := by
    unfold gb1 at ht hs
    unfold u32size
    omega
  refine ⟨h3, h1, rfl, Nat.mod_eq_of_lt hlt, ?_⟩
  intro habort
  have hnot : ¬ bs < (alignUpPow2 t 4 + s) % u32size := of_decide_eq_false habort
  exact Nat.le_of_not_lt hnot

/-- Unfolding equation for `runPushes` on a nonempty size list. -/
theorem runPushes_cons (bs t s : Nat) (rest : List Nat) :
    runPushes bs t (s :: rest) =
      if (pushPacket bs t s).aborted = true then [pushPacket bs t s]
      else pushPacket bs t s :: runPushes bs (pushPacket bs t s).newTop rest := rfl

/-- Per-element and pairwise facts about a linearised sequence of pushes in
the overflow-free regime. -/
theorem runPushes_spec (bs : Nat) (sizes : List Nat) :
    ∀ t0, t0 ≤ gb1 → bs ≤ gb1 → (∀ s ∈ sizes, s ≤ gb1) →
      (∀ r ∈ runPushes bs t0 sizes,
        r.alignedOffset % 4 = 0 ∧ t0 ≤ r.alignedOffset ∧
        r.newTop = r.alignedOffset + r.size ∧ t0 ≤ r.newTop) ∧
      List.Pairwise
        (fun a b => a.newTop ≤ b.newTop ∧ a.alignedOffset + a.size ≤ b.alignedOffset)
        (runPushes bs t0 sizes) := by
  induction sizes with
  | nil =>
    intro t0 ht hbs hsz
    simp [runPushes]
  | cons s rest ih =>
    intro t0 ht hbs hsz
    have hshead : s ≤ gb1 := hsz s (List.mem_cons_self s rest)
    have hsrest : ∀ x ∈ rest, x ≤ gb1 := fun x hx => hsz x (List.mem_cons_of_mem s hx)
    obtain ⟨hal, hofs, hsize, htop, habort⟩ := pushPacket_spec bs t0 s ht hshead
    rw [runPushes_cons]
    by_cases hab : (pushPacket bs t0 s).aborted = true
    · rw [if_pos hab]
      constructor
      · intro r hr
        rw [List.mem_singleton] at hr
        subst hr
        exact ⟨hal, hofs, by rw [htop, hsize], by omega⟩
      · simp
    · rw [Bool.not_eq_true] at hab
      have hnext : (pushPacket bs t0 s).newTop ≤ gb1 :=
        le_trans (habort hab) hbs
      obtain ⟨ihElem, ihPair⟩ := ih (pushPacket bs t0 s).newTop hnext hbs hsrest
      rw [if_neg (by rw [hab]; exact Bool.false_ne_true)]
      constructor
      · intro r hr
        rcases List.mem_cons.mp hr with hr | hr
        · subst hr
          exact ⟨hal, hofs, by rw [htop, hsize], by omega⟩
        · obtain ⟨e1, e2, e3, e4⟩ := ihElem r hr
          have h0 : t0 ≤ (pushPacket bs t0 s).newTop := by omega
          exact ⟨e1, le_trans h0 e2, e3, le_trans h0 e4⟩
      · refine List.Pairwise.cons ?_ ihPair
        intro b hb
        obtain ⟨e1, e2, e3, e4⟩ := ihElem b hb
        constructor
        · calc (pushPacket bs t0 s).newTop ≤ b.alignedOffset := e2
            _ ≤ b.newTop := by omega
        · calc (pushPacket bs t0 s).alignedOffset + (pushPacket bs t0 s).size
              = (pushPacket bs t0 s).newTop := by rw [htop, hsize]
            _ ≤ b.alignedOffset := e2

/-- The loop of `Detach` succeeds exactly when every mapped thread still
exists. -/
theorem detachAll_eq_true_iff (alive : ThreadID → Bool) (l : List ThreadID) :
    detachAll alive l = true ↔ ∀ t ∈ l, alive t = true := by
  induction l with
  | nil => simp [detachAll]
  | cons t rest ih =>
    by_cases h : alive t
    · simp [detachAll, detachFromThread, h, ih]
    · simp [detachAll, detachFromThread, h]

/-! ## Claim theorems -/

/-- Claim C1 (code-bug exhibit).  The claim states that `Attach` repeats the
enumerate-and-attach pass whenever a pass attached a new thread, returning
success only after a pass that adds nothing.  Evaluating the embedded code at
the failing input shows otherwise: with an empty thread map, enumeration
returning `[1]` on the first pass and `[1, 2]` on every later pass, and every
ptrace call succeeding, `Attach` performs exactly one enumeration pass,
attaches only thread 1 and returns success — thread 2 is never attached and no
confirming pass runs.  Even with a static thread set (second conjunct) only a
single pass is performed, never the final pass that adds nothing: the loop
flag `attached` is initialised to false and never set to true by the body, so
the `while (attached)` condition is constantly false, contradicting the
source's own comment "repeatedly enumerate the list of threads until there
aren't any more we need to attach to". -/
theorem C1_attach_performs_single_pass :
    Attach (fun pass => if pass = 0 then some [1] else some [1, 2])
        (fun _ => AttachStep.ok) ⟨false, []⟩ =
      AttachResult.ok ⟨true, [1]⟩ 1 ∧
    Attach (fun _ => some [1]) (fun _ => AttachStep.ok) ⟨false, []⟩ =
      AttachResult.ok ⟨true, [1]⟩ 1 := by
  exact ⟨rfl, rfl⟩

/-- Claim C2 (code-bug exhibit).  The claim states that a `PushPacket` whose
cumulative aligned size exceeds the capacity configured by `BeginTrace` hits
the fatal abort before any packet bytes land outside the allocated buffer.
Evaluating the embedded code at the failing input refutes this: `BeginTrace`
allocates `_256mb` bytes but records `m_buffer_size = _1gb`, so three pushes
of 150 MiB (157286400 bytes) each all pass the `m_top > m_buffer_size` check,
and the third writes its packet header at offset 314572800 — beyond the
268435456-byte allocation — without aborting.  The abort only fires once the
cursor passes 1 GiB (final conjunct). -/
theorem C2_overflow_check_mismatch :
    beginTrace.bufferAlloc = mb256 ∧
    beginTrace.bufferSize = gb1 ∧
    runPushes beginTrace.bufferSize beginTrace.top
        [157286400, 157286400, 157286400] =
      [⟨0, 157286400, 157286400, false⟩,
       ⟨157286400, 157286400, 314572800, false⟩,
       ⟨314572800, 157286400, 471859200, false⟩] ∧
    mb256 < 314572800 ∧
    (pushPacket beginTrace.bufferSize 471859200 700000000).aborted = true := by
  refine ⟨rfl, rfl, by decide, by decide, by decide⟩

/-- Claim C3: `TranslateHostAddressToOffset` returns the registered offset
plus the in-region delta for any host pointer inside some registered region,
and "not found" for a pointer outside every region (in particular at the
exclusive upper bound `pointer + size`).  The hypothesis `hwf` bounds each
entry's `offset + size` by 2^32 so that the `u32` sum `offset + delta` written
to the destination does not wrap; every table the `u32` bump allocator of
`RegisterGlobal` builds without overflowing satisfies it. -/
theorem C3_translate_offsets (globals : List TracedGlobal) (p : Nat)
    (hwf : ∀ g ∈ globals, g.offset + g.size ≤ u32size) :
    ((∀ g ∈ globals, ¬ inRegion g p) →
      translateHostAddressToOffset globals p = none) ∧
    ((∃ g ∈ globals, inRegion g p) →
      ∃ g ∈ globals, inRegion g p ∧
        translateHostAddressToOffset globals p =
          some (g.offset + (p - g.buffer))) := by
  induction globals with
  | nil =>
    constructor
    · intro _
      rfl
    · intro h
      simp at h
  | cons g rest ih =>
    have hwfrest : ∀ x ∈ rest, x.offset + x.size ≤ u32size :=
      fun x hx => hwf x (List.mem_cons_of_mem g hx)
    obtain ⟨ih1, ih2⟩ := ih hwfrest
    by_cases hg : inRegion g p
    · constructor
      · intro hall
        exact absurd hg (hall g (List.mem_cons_self g rest))
      · intro _
        refine ⟨g, List.mem_cons_self g rest, hg, ?_⟩
        have hglt : g.offset + (p - g.buffer) < u32size := by
          have hb := hwf g (List.mem_cons_self g rest)
          obtain ⟨hlow, hhigh⟩ := hg
          unfold u32size at hb ⊢
          omega
        show (if inRegion g p then
            some ((g.offset + (p - g.buffer)) % u32size)
          else translateHostAddressToOffset rest p) =
          some (g.offset + (p - g.buffer))
        rw [if_pos hg, Nat.mod_eq_of_lt hglt]
    · constructor
      · intro hall
        show (if inRegion g p then
            some ((g.offset + (p - g.buffer)) % u32size)
          else translateHostAddressToOffset rest p) = none
        rw [if_neg hg]
        exact ih1 (fun x hx => hall x (List.mem_cons_of_mem g hx))
      · intro hex
        obtain ⟨g1, hmem1, hin1⟩ := hex
        have hrest : g1 ∈ rest := by
          rcases List.mem_cons.mp hmem1 with heq | hmem
          · exact absurd (heq ▸ hin1) hg
          · exact hmem
        obtain ⟨g2, hmem2, hin2, heq2⟩ := ih2 ⟨g1, hrest, hin1⟩
        refine ⟨g2, List.mem_cons_of_mem g hmem2, hin2, ?_⟩
        show (if inRegion g p then
            some ((g.offset + (p - g.buffer)) % u32size)
          else translateHostAddressToOffset rest p) =
          some (g2.offset + (p - g2.buffer))
        rw [if_neg hg]
        exact heq2

/-- Witness for C3: in the table with regions A = [1000, 1010) at offset 0 and
B = [2000, 2003) at offset 16, the pointer 2001 translates to 16 + 1, and the
pointer 2003 = B.pointer + B.size (the exclusive upper bound) is not found. -/
theorem C3_translate_offsets_witness :
    (∃ g ∈ ([⟨"A", 1000, 0, 10⟩, ⟨"B", 2000, 16, 3⟩] : List TracedGlobal),
      inRegion g 2001 ∧
        translateHostAddressToOffset
            [⟨"A", 1000, 0, 10⟩, ⟨"B", 2000, 16, 3⟩] 2001 =
          some (g.offset + (2001 - g.buffer))) ∧
    translateHostAddressToOffset
        [⟨"A", 1000, 0, 10⟩, ⟨"B", 2000, 16, 3⟩] 2003 = none :=
  ⟨(C3_translate_offsets [⟨"A", 1000, 0, 10⟩, ⟨"B", 2000, 16, 3⟩] 2001
      (by decide)).2 (by decide),
   (C3_translate_offsets [⟨"A", 1000, 0, 10⟩, ⟨"B", 2000, 16, 3⟩] 2003
      (by decide)).1 (by decide)⟩

/-- Claim C4: `RegisterGlobal` assigns each new global the running total
rounded up to the next 16-byte boundary as its offset and advances the running
total to `offset + size` (first conjunct, for any registry state, under the
no-`u32`-overflow side conditions implied by the data); starting from the
empty registry, registering A with size 10 then B with size 3 yields offsets
0 and 16 whatever the globals' actual addresses are (second conjunct). -/
theorem C4_registerGlobal_bump (r : Registry) (nm : String) (b sz : Nat)
    (h1 : sz < u32size)
    (h2 : alignUpPow2 r.traced_globals_size 16 + sz < u32size) :
    (registerGlobal r nm b sz =
      { traced_globals := r.traced_globals ++
          [⟨nm, b, alignUpPow2 r.traced_globals_size 16, sz⟩]
        traced_globals_size := alignUpPow2 r.traced_globals_size 16 + sz }) ∧
    (∀ addressA addressB : Nat,
      ((registerGlobal (registerGlobal ⟨[], 0⟩ "A" addressA 10) "B" addressB 3).traced_globals.map
        TracedGlobal.offset) = [0, 16]) := by
  constructor
  · simp only [registerGlobal]
    rw [Nat.mod_eq_of_lt h1, Nat.mod_eq_of_lt h2]
  · intro addressA addressB
    simp [registerGlobal, alignUpPow2, u32size]

/-- Witness for C4: the general bump equation applied to the empty registry
and a first registration of size 10, together with the concrete A/B offsets
instance at addresses 100 and 200. -/
theorem C4_registerGlobal_bump_witness :
    (registerGlobal ⟨[], 0⟩ "A" 100 10 =
      { traced_globals := [⟨"A", 100, 0, 10⟩]
        traced_globals_size := 10 }) ∧
    (∀ addressA addressB : Nat,
      ((registerGlobal (registerGlobal ⟨[], 0⟩ "A" addressA 10) "B" addressB 3).traced_globals.map
        TracedGlobal.offset) = [0, 16]) :=
  C4_registerGlobal_bump ⟨[], 0⟩ "A" 100 10 (by decide) (by decide)

/-- Claim C5 (counterexample).  The claim states that detaching a thread that
no longer exists is treated as already-detached, with `Detach` continuing and
reporting success.  In the embedded code, `ptrace(PTRACE_DETACH)` on the
vanished thread 42 fails, `DetachFromThread` returns false, and `Detach`
returns false immediately with the thread map unchanged — not success with a
cleared map. -/
theorem C5_detach_dead_thread_cex :
    Detach (fun _ => false) ⟨true, [42]⟩ = DetachResult.failed ⟨true, [42]⟩ ∧
    Detach (fun _ => false) ⟨true, [42]⟩ ≠ DetachResult.ok ⟨false, []⟩ := by
  exact ⟨rfl, by decide⟩

/-- Claim C5 (amended): there is no already-detached special case.  If any
mapped thread no longer exists (its `PTRACE_DETACH` fails), `Detach` returns
false immediately, leaving `m_threads` and `m_attached` untouched; it reports
success and clears the map only when every per-thread detach succeeds. -/
theorem C5_detach_error_result (alive : ThreadID → Bool) (s : DebugState)
    (h : s.attached = true) :
    ((∃ t ∈ s.threads, alive t = false) → Detach alive s = DetachResult.failed s) ∧
    ((∀ t ∈ s.threads, alive t = true) → Detach alive s = DetachResult.ok ⟨false, []⟩) := by
  constructor
  · rintro ⟨t, htmem, htdead⟩
    have hfalse : detachAll alive s.threads = false := by
      rcases Bool.eq_false_or_eq_true (detachAll alive s.threads) with htr | hf
      · have hall := (detachAll_eq_true_iff alive s.threads).mp htr
        rw [hall t htmem] at htdead
        cases htdead
      · exact hf
    unfold Detach
    rw [if_pos h, hfalse]
    rfl
  · intro hall
    unfold Detach
    rw [if_pos h, (detachAll_eq_true_iff alive s.threads).mpr hall]
    rfl

/-- Witness for C5 (amended): with thread 42 mapped, `Detach` fails when the
thread has vanished and succeeds (clearing the map) when it is still alive. -/
theorem C5_detach_error_result_witness :
    Detach (fun _ => false) ⟨true, [42]⟩ = DetachResult.failed ⟨true, [42]⟩ ∧
    Detach (fun _ => true) ⟨true, [42]⟩ = DetachResult.ok ⟨false, []⟩ :=
  ⟨(C5_detach_error_result (fun _ => false) ⟨true, [42]⟩ rfl).1
      ⟨42, List.mem_singleton.mpr rfl, rfl⟩,
   (C5_detach_error_result (fun _ => true) ⟨true, [42]⟩ rfl).2
      (fun _ _ => rfl)⟩

/-- Claim C6 (counterexample).  The claim states that calling `Start` when the
thread is already started is surfaced as a hard assertion failure.  In the
embedded code it is an ordinary recoverable error return: `Start` returns
false with the error string "Tracer thread already started." and no assertion
fires (only `Stop` uses `pxAssert`). -/
theorem C6_start_already_started_cex :
    Start true ⟨some 1, true, true, true⟩ =
      (StartOutcome.errorReturn "Tracer thread already started.", true) := rfl

/-- Claim C6 (amended): calling `Stop` when not started is a hard assertion
failure (`pxAssert(m_started)`), as the claim states; but calling `Start` when
already started is a recoverable error return carrying the message
"Tracer thread already started.", not an assertion. -/
theorem C6_start_stop_misuse (env : StartEnv) :
    Stop false = (StopOutcome.assertFailed, false) ∧
    Start true env =
      (StartOutcome.errorReturn "Tracer thread already started.", true) := by
  exact ⟨rfl, rfl⟩

/-- Claim C7: if the interruption flag is set when `WaitForEvent` is entered,
it returns "no event" immediately and issues zero blocking `waitpid` syscalls;
the flag test is the first statement of the function, which `RunDebugLoop`
re-evaluates as the condition of every iteration of its event loop. -/
theorem C7_interrupt_before_wait (interrupt : Option Bool)
    (threads : List ThreadID) (wait : ThreadID × Nat)
    (h : interrupt = some true) :
    WaitForEvent interrupt threads wait = (WaitOutcome.noEvent, 0) := by
  subst h
  rfl

/-- Witness for C7: with threads 3 and 4 attached and a pending exit status
for thread 3, a set interruption flag still short-circuits the wait. -/
theorem C7_interrupt_before_wait_witness :
    WaitForEvent (some true) [3, 4] (3, 0) = (WaitOutcome.noEvent, 0) :=
  C7_interrupt_before_wait (some true) [3, 4] (3, 0) rfl

/-- Claim C8 (counterexample).  The claim states that every `EndEvent` call
appends one END_EVENT span-marker packet.  The body of
`TraceRecorder::EndEvent` is empty: on the fresh recorder state it appends
nothing, so the packet count does not grow by one. -/
theorem C8_endEvent_pushes_nothing_cex :
    endEvent 0 0 ⟨0, []⟩ = (⟨0, []⟩ : RecState) ∧
    ¬ ((endEvent 0 0 ⟨0, []⟩).packets.length =
        (⟨0, []⟩ : RecState).packets.length + 1) := by
  exact ⟨rfl, by decide⟩

/-- Claim C8 (amended): every `BeginEvent` call appends exactly one packet
with type BEGIN_EVENT and size field `sizeof(EventPacket)` = 8 — but its
payload is left unwritten, so the packet does not carry the caller's event
and channel; `EndEvent` appends nothing at all (its body is empty).  The
hypothesis keeps the underlying `PushPacket` away from its abort check. -/
theorem C8_event_markers (event channel : Nat) (s : RecState)
    (h : s.top + 11 ≤ gb1) :
    beginEvent event channel s =
      some { top := alignUpPow2 s.top 4 + 8
             packets := s.packets ++
               [(PacketType.BEGIN_EVENT, 8, alignUpPow2 s.top 4)] } ∧
    endEvent event channel s = s := by
  obtain ⟨h1, h2, h3⟩ := alignUpPow2_four_bounds s.top
  have hlt : alignUpPow2 s.top 4 + 8 < u32size := by
    unfold gb1 at h
    unfold u32size
    omega
  have hle : alignUpPow2 s.top 4 + 8 ≤ gb1 := by
    unfold gb1 at h ⊢
    omega
  have hab : (pushPacket beginTrace.bufferSize s.top sizeofEventPacket).aborted = false := by
    show decide (gb1 < (alignUpPow2 s.top 4 + 8) % u32size) = false
    rw [Nat.mod_eq_of_lt hlt]
    exact decide_eq_false (Nat.not_lt.mpr hle)
  have hnewTop : (pushPacket beginTrace.bufferSize s.top sizeofEventPacket).newTop =
      alignUpPow2 s.top 4 + 8 := by
    show (alignUpPow2 s.top 4 + 8) % u32size = alignUpPow2 s.top 4 + 8
    exact Nat.mod_eq_of_lt hlt
  constructor
  · simp only [beginEvent]
    rw [if_neg (by rw [hab]; exact Bool.false_ne_true), hnewTop]
    rfl
  · rfl

/-- Witness for C8 (amended): on the fresh recorder state, `BeginEvent`
appends the single BEGIN_EVENT header at offset 0 and `EndEvent` changes
nothing. -/
theorem C8_event_markers_witness :
    beginEvent 1 2 ⟨0, []⟩ =
      some { top := alignUpPow2 0 4 + 8
             packets := [] ++ [(PacketType.BEGIN_EVENT, 8, alignUpPow2 0 4)] } ∧
    endEvent 1 2 ⟨0, []⟩ = (⟨0, []⟩ : RecState) :=
  C8_event_markers 1 2 ⟨0, []⟩ (by decide)

/-- Claim C9: for the state in which the program invokes `Attach` (the freshly
constructed interface, whose thread map is empty; `Attach` additionally
asserts `!m_attached`), a successful `Attach` followed by a successful
`Detach` leaves the thread map empty and therefore equal to its pre-`Attach`
state: `Detach` clears `m_threads` and resets `m_attached` on success. -/
theorem C9_attach_detach_roundtrip
    (enum : Nat → Option (List ThreadID)) (oracle : ThreadID → AttachStep)
    (alive : ThreadID → Bool) (s s1 s2 : DebugState) (n : Nat)
    (hpre : s.threads = [])
    (h1 : Attach enum oracle s = AttachResult.ok s1 n)
    (h2 : Detach alive s1 = DetachResult.ok s2) :
    s2.threads = [] ∧ s2.threads = s.threads := by
  have hs2 : s2 = ⟨false, []⟩ := by
    unfold Detach at h2
    by_cases ha : s1.attached = true
    · rw [if_pos ha] at h2
      by_cases hd : detachAll alive s1.threads = true
      · rw [if_pos hd] at h2
        exact (DetachResult.ok.inj h2).symm
      · rw [if_neg hd] at h2
        cases h2
    · rw [if_neg ha] at h2
      cases h2
  rw [hs2, hpre]
  exact ⟨rfl, rfl⟩

/-- Witness for C9: a fresh interface attaches to the single enumerated
thread 7 and detaches from it again; afterwards the map is empty, as before
the round trip. -/
theorem C9_attach_detach_roundtrip_witness :
    (⟨false, []⟩ : DebugState).threads = [] ∧
    (⟨false, []⟩ : DebugState).threads = (⟨false, []⟩ : DebugState).threads :=
  C9_attach_detach_roundtrip (fun _ => some [7]) (fun _ => AttachStep.ok)
    (fun _ => true) ⟨false, []⟩ ⟨true, [7]⟩ ⟨false, []⟩ 1 rfl rfl rfl

/-- Claim C10 (counterexample).  The claim quantifies over every sequence of
`PushPacket` calls, but `m_top` is a `u32`: pushing a packet of size 4 and
then one of size 4294967295 makes the compare-and-swap wrap the cursor from
4 to (4 + 4294967295) mod 2^32 = 3 — the cursor decreases, no abort fires
(3 is below `m_buffer_size`), and the claimed ranges of subsequent pushes
would overlap the second push's range. -/
theorem C10_cursor_wrap_cex :
    (runPushes beginTrace.bufferSize 0 [4, 4294967295]).map PushResult.newTop =
      [4, 3] ∧
    ¬ List.Pairwise (fun a b => a ≤ b)
        ((runPushes beginTrace.bufferSize 0 [4, 4294967295]).map PushResult.newTop) ∧
    ∀ r ∈ runPushes beginTrace.bufferSize 0 [4, 4294967295], r.aborted = false := by
  refine ⟨by decide, by decide, by decide⟩

/-- Claim C10 (amended): provided no push overflows the 32-bit cursor — the
starting cursor and every pushed size at most `_1gb`, which holds for every
packet the program actually pushes, since the abort check keeps the cursor at
most `m_buffer_size = _1gb` and the SAVE_STATE, BEGIN_EVENT and WRITE packet
sizes are far smaller — every packet header is placed at a 4-byte-aligned
offset, the shared cursor `m_top` is monotonically non-decreasing, and the
byte ranges `[alignedOffset, alignedOffset + size)` claimed by distinct calls
are pairwise disjoint (each range ends no later than every later range
starts). -/
theorem C10_push_invariants (t0 : Nat) (sizes : List Nat)
    (h0 : t0 ≤ gb1) (hs : ∀ s ∈ sizes, s ≤ gb1) :
    (∀ r ∈ runPushes beginTrace.bufferSize t0 sizes,
        r.alignedOffset % 4 = 0 ∧ t0 ≤ r.newTop) ∧
    List.Pairwise (fun a b => a.newTop ≤ b.newTop)
      (runPushes beginTrace.bufferSize t0 sizes) ∧
    List.Pairwise (fun a b => a.alignedOffset + a.size ≤ b.alignedOffset)
      (runPushes beginTrace.bufferSize t0 sizes) := by
  have hbs : beginTrace.bufferSize ≤ gb1 := Nat.le_refl gb1
  obtain ⟨hElem, hPair⟩ := runPushes_spec beginTrace.bufferSize sizes t0 h0 hbs hs
  refine ⟨fun r hr => ?_, ?_, ?_⟩
  · obtain ⟨e1, e2, e3, e4⟩ := hElem r hr
    exact ⟨e1, e4⟩
  · exact hPair.imp (fun h => h.1)
  · exact hPair.imp (fun h => h.2)

/-- Witness for C10 (amended): the invariants evaluated on two small pushes
from the fresh cursor. -/
theorem C10_push_invariants_witness :
    (∀ r ∈ runPushes beginTrace.bufferSize 0 [8, 5],
        r.alignedOffset % 4 = 0 ∧ 0 ≤ r.newTop) ∧
    List.Pairwise (fun a b => a.newTop ≤ b.newTop)
      (runPushes beginTrace.bufferSize 0 [8, 5]) ∧
    List.Pairwise (fun a b => a.alignedOffset + a.size ≤ b.alignedOffset)
      (runPushes beginTrace.bufferSize 0 [8, 5]) :=
  C10_push_invariants 0 [8, 5] (by decide) (by decide)
